import Mathlib

/-!
Verification of the Mosa reactive-facade library (src/src/Mosa.ts).

Mosa is a thin facade over an injected reactivity backend.  The facade's own
code (initializeMosa and the helper function exists) is embedded faithfully
below.  The backend operations (createSignal, createComputed, createAutoEffect,
createManualEffect, createRoot, onDispose) are external collaborators supplied
by a host framework; where a property depends on their behaviour we model them
from the Configuration Contract the specification states for them (a signal is
a mutable cell, a computed recomputes from the current dependency state, an
effect runs once immediately at registration).

Modelling conventions:
* A TypeScript value of type T that may also be undefined or null is a
  `JSRef T` (constructors undefined, null, val).
* Mutable reactive state is passed explicitly: a signal cell's contents is a
  value of its value type, and a formula's dependencies are an ambient state
  of type A; reads are functions of that state.
* Write accessors return, besides the updated state, a list of observable
  events (which caller-supplied setter was invoked, with which argument, and
  any backend operation invoked), so that claims counting invocations or
  asserting the absence of backend calls are statable.
-/

namespace Mosa

/-- JS reference that may be undefined, null, or an actual value of type a. -/
inductive JSRef (a : Type) where
  | undefined
  | null
  | val (x : a)
deriving DecidableEq, Repr

/-- JS runtime values used as concrete test inputs (booleans, numbers,
strings, object identities). -/
inductive JSVal where
  | bool (b : Bool)
  | num (n : Int)
  | str (s : String)
  | obj (id : Nat)
deriving DecidableEq, Repr

/-- Helper: the JS test x === undefined on a JSRef. -/
def isUndefined {a : Type} : JSRef a → Bool
  | .undefined => true
  | _ => false

/-- Helper: the JS test x === null on a JSRef. -/
def isNull {a : Type} : JSRef a → Bool
  | .null => true
  | _ => false

/-- Embeds function exists of src/src/Mosa.ts (lines 209-211):
return x !== undefined && x !== null. -/
def exists' {a : Type} (x : JSRef a) : Bool :=
  !(isUndefined x) && !(isNull x)

/-! ## doWatch (src/src/Mosa.ts lines 183-195) -/

/-- Options object of doWatch: every field of the options object may be
absent, so the on field is a JSRef of a dependency list. -/
structure WatchOptions (D : Type) where
  on' : JSRef (List D)
deriving DecidableEq, Repr

/-- Embeds the TypeScript optional chain options?.on: undefined when the
options object itself is undefined or null, otherwise the on field. -/
def optionsOn {D : Type} (options : JSRef (WatchOptions D)) : JSRef (List D) :=
  match options with
  | .val o => o.on'
  | .undefined => .undefined
  | .null => .undefined

/-- Result of registering an effect with the backend: either a manual effect
(createManualEffect with an explicit dependency list and a body) or an auto
effect (createAutoEffect with just the body). -/
inductive EffectRegistration (F D : Type) where
  | manual (deps : List D) (doFn : F)
  | auto (func : F)
deriving DecidableEq, Repr

/-- Tests whether a registration went through createManualEffect. -/
def isManualReg {F D : Type} : EffectRegistration F D → Bool
  | .manual _ _ => true
  | .auto _ => false

/-- Embeds doWatch of src/src/Mosa.ts (lines 183-195), abstracted over the
two backend operations it may call:
exists(options?.on) ? createManualEffect(\x7bon: options.on, do: func\x7d)
: createAutoEffect(func).  The argument c is the backend createManualEffect
(taking the dependency list and the body) and e is createAutoEffect.  When
exists succeeds on options?.on, the TypeScript narrowing makes options.on
exactly the witnessed list, which the match binds as deps. -/
def doWatchWith {F D E : Type} (c : List D → F → E) (e : F → E)
    (func : F) (options : JSRef (WatchOptions D)) : E :=
  match optionsOn options with
  | .val deps => c deps func
  | .undefined => e func
  | .null => e func

/-- The facade doWatch with the backend operations instantiated to record
which registration was made (createManualEffect becomes the manual
constructor, createAutoEffect the auto constructor). -/
def doWatch {F D : Type} (func : F) (options : JSRef (WatchOptions D)) :
    EffectRegistration F D :=
  doWatchWith (fun deps f => EffectRegistration.manual deps f)
    (fun f => EffectRegistration.auto f) func options

/-- Modelled from the spec: the backend effect primitives are not in this
repository; the Configuration Contract (spec section 6) states that
createAutoEffect runs the effect immediately and createManualEffect runs its
do function immediately.  This gives the list of effect-body invocations the
backend performs synchronously at registration time: exactly one in either
mode. -/
def registrationInvocations {F D : Type} : EffectRegistration F D → List F
  | .manual _ doFn => [doFn]
  | .auto func => [func]

/-! ## useFormula (src/src/Mosa.ts lines 112-138) -/

/-- Events observable from a formula's write accessor: the caller-supplied
setter being invoked with its argument, or a backend operation being
invoked. -/
inductive WriteEvent (S : Type) where
  | setterCall (arg : S)
  | backendCall (opName : String)
deriving DecidableEq, Repr

/-- Modelled from the spec: the backend createComputed (Configuration
Contract, spec section 6) returns a get whose value is the derived value
recomputed from the current dependency state; A is the type of that ambient
dependency state. -/
structure ComputedObj (A G : Type) where
  get : A → G

/-- Modelled from the spec: createComputed(compute) packages compute as the
get of the returned computed object, evaluated against the dependency state
current at read time. -/
def createComputed {A G : Type} (compute : A → G) : ComputedObj A G :=
  ⟨fun a => compute a⟩

/-- The object returned by useFormula: the undocumented literal field _isSig,
a value getter reading against the current dependency state, and a value
setter returning the updated dependency state together with the observable
write events. -/
structure FormulaObj (A G S : Type) where
  _isSig : Bool
  valueGet : A → G
  valueSet : S → A → A × List (WriteEvent S)

/-- Embeds useFormula of src/src/Mosa.ts (lines 112-138), abstracted over the
backend createComputed it calls (argument c):
const \x7b get \x7d = mosaConfig.createComputed(compute) and the returned
object with _isSig: true, get value() \x7b return get(); \x7d, and
set value(newValue) \x7b set?.(newValue); \x7d.  The optional setter set is a
JSRef; its semantic action on the dependency state is an arbitrary function
S → A → A, and invoking it is recorded as a setterCall event.  The optional
call set?.(newValue) runs the setter only when set is neither undefined nor
null, else it does nothing. -/
def useFormulaWith {A G S : Type} (c : (A → G) → ComputedObj A G)
    (compute : A → G) (set : JSRef (S → A → A)) : FormulaObj A G S :=
  let computed := c compute
  ⟨true,
   fun a => computed.get a,
   fun newValue a =>
     match set with
     | .val s => (s newValue a, [WriteEvent.setterCall newValue])
     | .undefined => (a, [])
     | .null => (a, [])⟩

/-- The facade useFormula with the backend createComputed instantiated to the
spec-modelled one. -/
def useFormula {A G S : Type} (compute : A → G) (set : JSRef (S → A → A)) :
    FormulaObj A G S :=
  useFormulaWith createComputed compute set

/-! ## useProp (src/src/Mosa.ts lines 73-88) -/

/-- Modelled from the spec: the backend createSignal (Configuration Contract,
spec section 6) returns a get/set pair over a mutable cell; the cell's
contents is a value of type V passed explicitly.  The field get reads the
current contents, set replaces it with the new value, and init is the cell's
contents at creation time. -/
structure SignalObj (V : Type) where
  get : V → V
  set : V → V → V
  init : V

/-- Modelled from the spec: createSignal(initValue) creates a cell holding
initValue; get returns the current contents unchanged and set stores the new
value unchanged. -/
def createSignal {V : Type} (initValue : V) : SignalObj V :=
  ⟨fun cur => cur, fun newValue _cur => newValue, initValue⟩

/-- The object returned by useProp: a value getter over the cell contents, a
value setter producing the new cell contents, and the contents at creation
time. -/
structure PropObj (V : Type) where
  valueGet : V → V
  valueSet : V → V → V
  init : V

/-- Embeds useProp of src/src/Mosa.ts (lines 73-88), abstracted over the
backend createSignal it calls (argument c):
const \x7b get, set \x7d = mosaConfig.createSignal(initValue) and the
returned object with get value() \x7b return get(); \x7d and
set value(newValue) \x7b set(newValue); \x7d.  No validation or coercion is
applied on either path. -/
def usePropWith {V : Type} (c : V → SignalObj V) (initValue : V) : PropObj V :=
  let signal := c initValue
  ⟨fun cur => signal.get cur,
   fun newValue cur => signal.set newValue cur,
   signal.init⟩

/-- The facade useProp with the backend createSignal instantiated to the
spec-modelled one. -/
def useProp {V : Type} (initValue : V) : PropObj V :=
  usePropWith createSignal initValue

/-! ## doNow (src/src/Mosa.ts lines 146-148) -/

/-- Embeds doNow of src/src/Mosa.ts (lines 146-148): return func().  The
zero-argument function is applied exactly once, immediately, and its result
is returned unchanged; nothing else happens. -/
def doNow {T : Type} (func : Unit → T) : T :=
  func ()

/-! ## initializeMosa (src/src/Mosa.ts lines 41-207)

At runtime an incomplete configuration object simply has undefined (or null)
in place of some operations, and JavaScript raises a TypeError naming the
missing operation only when that operation is actually called.  The
configuration is therefore a record of JSRef-wrapped operations, and each
facade operation returns an Except that fails with missingOp naming exactly
the one backend operation it tried to call. -/

/-- Error raised when an absent backend operation is invoked: the JS
TypeError from calling undefined, identified by the operation's name. -/
inductive MosaError where
  | missingOp (opName : String)
deriving DecidableEq, Repr

/-- Configuration object passed to initializeMosa, each of the six backend
operations possibly absent.  Type parameters: T root result, V signal value,
A ambient dependency state, G formula read type, S formula write type,
F effect-body type, D watch-dependency type. -/
structure MosaConfig (T V A G S F D : Type) where
  createRoot : JSRef ((Unit → T) → T)
  createSignal : JSRef (V → SignalObj V)
  createComputed : JSRef ((A → G) → ComputedObj A G)
  createAutoEffect : JSRef (F → EffectRegistration F D)
  createManualEffect : JSRef (List D → F → EffectRegistration F D)
  onDispose : JSRef (F → F)

/-- Facade returned by initializeMosa; each operation that delegates to the
backend may fail with missingOp when the backend operation is absent. -/
structure MosaApi (T V A G S F D : Type) where
  useRoot : (Unit → T) → Except MosaError T
  useProp : V → Except MosaError (PropObj V)
  useFormula : (A → G) → JSRef (S → A → A) → Except MosaError (FormulaObj A G S)
  doNow : (Unit → T) → Except MosaError T
  doWatch : F → JSRef (WatchOptions D) → Except MosaError (EffectRegistration F D)
  onDispose : F → Except MosaError F
  exists' : JSRef JSVal → Bool

/-- Embeds initializeMosa of src/src/Mosa.ts (lines 41-207): builds the
facade object from the supplied configuration.  Construction itself calls no
backend operation; each facade operation looks up the one backend operation
it delegates to at its own invocation time and fails with missingOp exactly
when that operation is absent (the JS TypeError, propagated unchanged).
doNow and exists never touch the backend.  The doWatch branch mirrors
doWatchWith: the manual arm needs only createManualEffect and the auto arm
only createAutoEffect. -/
def initializeMosa {T V A G S F D : Type} (cfg : MosaConfig T V A G S F D) :
    MosaApi T V A G S F D :=
  ⟨fun func =>
     match cfg.createRoot with
     | .val cr => .ok (cr func)
     | .undefined => .error (.missingOp ("createRoot"))
     | .null => .error (.missingOp ("createRoot")),
   fun initValue =>
     match cfg.createSignal with
     | .val cs => .ok (usePropWith cs initValue)
     | .undefined => .error (.missingOp ("createSignal"))
     | .null => .error (.missingOp ("createSignal")),
   fun compute set =>
     match cfg.createComputed with
     | .val cc => .ok (useFormulaWith cc compute set)
     | .undefined => .error (.missingOp ("createComputed"))
     | .null => .error (.missingOp ("createComputed")),
   fun func => .ok (doNow func),
   fun func options =>
     match optionsOn options with
     | .val deps =>
       (match cfg.createManualEffect with
        | .val cme => .ok (cme deps func)
        | .undefined => .error (.missingOp ("createManualEffect"))
        | .null => .error (.missingOp ("createManualEffect")))
     | .undefined =>
       (match cfg.createAutoEffect with
        | .val cae => .ok (cae func)
        | .undefined => .error (.missingOp ("createAutoEffect"))
        | .null => .error (.missingOp ("createAutoEffect")))
     | .null =>
       (match cfg.createAutoEffect with
        | .val cae => .ok (cae func)
        | .undefined => .error (.missingOp ("createAutoEffect"))
        | .null => .error (.missingOp ("createAutoEffect"))),
   fun func =>
     match cfg.onDispose with
     | .val od => .ok (od func)
     | .undefined => .error (.missingOp ("onDispose"))
     | .null => .error (.missingOp ("onDispose")),
   fun x => exists' x⟩

/-- Configuration with every backend operation absent, the extreme incomplete
configuration. -/
def emptyConfig {T V A G S F D : Type} : MosaConfig T V A G S F D :=
  ⟨.undefined, .undefined, .undefined, .undefined, .undefined, .undefined⟩

/-- Empty configuration at concrete Nat instantiations, for witnesses. -/
def emptyConfigN : MosaConfig Nat Nat Nat Nat Nat Nat Nat :=
  emptyConfig

/-- Complete configuration at concrete Nat instantiations, every backend
operation present, for witnesses. -/
def fullConfig : MosaConfig Nat Nat Nat Nat Nat Nat Nat :=
  ⟨JSRef.val (fun func => func ()),
   JSRef.val (fun initValue => createSignal initValue),
   JSRef.val (fun compute => createComputed compute),
   JSRef.val (fun func => EffectRegistration.auto func),
   JSRef.val (fun deps func => EffectRegistration.manual deps func),
   JSRef.val (fun func => func)⟩

/-! ## Theorems -/

/-- C1: doWatch registers a manual effect through the backend
createManualEffect (argument c) with exactly the list options.on as
dependencies and func as the body whenever options.on is non-null, and
registers an automatic effect through createAutoEffect (argument e) with
func otherwise; and per the backend contract the effect body is invoked
exactly once synchronously at registration time in either mode. -/
theorem doWatch_registers_and_runs_once {F D E : Type}
    (c : List D → F → E) (e : F → E) (func : F)
    (options : JSRef (WatchOptions D)) :
    (∀ deps : List D, optionsOn options = JSRef.val deps →
      doWatchWith c e func options = c deps func) ∧
    (exists' (optionsOn options) = false →
      doWatchWith c e func options = e func) ∧
    registrationInvocations (doWatch func options) = [func] := by
  refine ⟨?_, ?_, ?_⟩
  · intro deps h
    simp [doWatchWith, h]
  · intro h
    rcases hs : optionsOn options with _ | _ | deps
    · simp [doWatchWith, hs]
    · simp [doWatchWith, hs]
    · rw [hs] at h
      simp [exists', isUndefined, isNull] at h
  · rcases hs : optionsOn options with _ | _ | deps <;>
      simp [doWatch, doWatchWith, hs, registrationInvocations]

/-- Witness for doWatch_registers_and_runs_once: manual registration with a
concrete non-null list, auto registration with absent options, and the
single synchronous invocation. -/
theorem doWatch_registers_and_runs_once_witness :
    doWatchWith (fun deps f => EffectRegistration.manual (D := Nat) deps f)
      (fun f => EffectRegistration.auto f) 7
      (JSRef.val ⟨JSRef.val [1, 2]⟩) = EffectRegistration.manual [1, 2] 7 ∧
    doWatchWith (fun deps f => EffectRegistration.manual (D := Nat) deps f)
      (fun f => EffectRegistration.auto f) 7 JSRef.undefined =
      EffectRegistration.auto 7 ∧
    registrationInvocations (doWatch (D := Nat) 7 JSRef.undefined) = [7] :=
  ⟨(doWatch_registers_and_runs_once
      (fun deps f => EffectRegistration.manual (D := Nat) deps f)
      (fun f => EffectRegistration.auto f) 7
      (JSRef.val ⟨JSRef.val [1, 2]⟩)).1 [1, 2] rfl,
   (doWatch_registers_and_runs_once
      (fun deps f => EffectRegistration.manual (D := Nat) deps f)
      (fun f => EffectRegistration.auto f) 7 JSRef.undefined).2.1 rfl,
   (doWatch_registers_and_runs_once
      (fun deps f => EffectRegistration.manual (D := Nat) deps f)
      (fun f => EffectRegistration.auto f) 7 JSRef.undefined).2.2⟩

/-- C2 counterexample: doWatch called with an options object whose on field
is the empty list does select manual mode, because the empty array is
neither undefined nor null and so passes the exists check; the claim says
this call keeps dependency tracking automatic, which is false. -/
theorem doWatch_empty_on_cex :
    doWatch (F := Nat) (D := Nat) 0 (JSRef.val ⟨JSRef.val []⟩) =
      EffectRegistration.manual [] 0 ∧
    ¬ doWatch (F := Nat) (D := Nat) 0 (JSRef.val ⟨JSRef.val []⟩) =
      EffectRegistration.auto 0 := by
  exact ⟨rfl, by decide⟩

/-- C2 amended: doWatch selects manual dependency tracking exactly when the
on option is present and non-null, regardless of whether the list is empty;
in particular an empty on list registers a manual effect with an empty
dependency list. -/
theorem doWatch_manual_selection {F D : Type} (func : F)
    (options : JSRef (WatchOptions D)) :
    isManualReg (doWatch func options) = exists' (optionsOn options) ∧
    doWatch func (JSRef.val ⟨JSRef.val ([] : List D)⟩) =
      EffectRegistration.manual [] func := by
  constructor
  · rcases hs : optionsOn options with _ | _ | deps <;>
      simp [doWatch, doWatchWith, hs, isManualReg, exists', isUndefined,
        isNull]
  · rfl

/-- C3: writing any value to a formula constructed without a setter is a
silent no-op: the write produces no events (no setter call, no backend
operation), leaves the dependency state unchanged, and a subsequent read
returns exactly what a read before the write would have returned. -/
theorem useFormula_no_setter_write_noop {A G S : Type}
    (compute : A → G) (x : S) (a : A) :
    (useFormula (S := S) compute JSRef.undefined).valueSet x a = (a, []) ∧
    (useFormula (S := S) compute JSRef.undefined).valueGet
        ((useFormula (S := S) compute JSRef.undefined).valueSet x a).1 =
      (useFormula (S := S) compute JSRef.undefined).valueGet a := by
  exact ⟨rfl, rfl⟩

/-- C4: writing x to a formula constructed with setter s invokes s exactly
once with argument x (the event list is exactly one setterCall x, and the
state change is exactly the setter's own action), invokes no backend
operation, and leaves the formula's read path untouched: the value getter is
still exactly the compute function read through the backend computed. -/
theorem useFormula_setter_write {A G S : Type}
    (compute : A → G) (s : S → A → A) (x : S) (a : A) :
    (useFormula compute (JSRef.val s)).valueSet x a =
      (s x a, [WriteEvent.setterCall x]) ∧
    (∀ nm : String, WriteEvent.backendCall nm ∉
      ((useFormula compute (JSRef.val s)).valueSet x a).2) ∧
    (useFormula compute (JSRef.val s)).valueGet = fun b => compute b := by
  refine ⟨rfl, ?_, rfl⟩
  intro nm
  simp [useFormula, useFormulaWith]

/-- C5: a prop reads back its initial value immediately after construction,
a read after a write returns exactly the written value, and both accessors
forward unchanged to the backend signal's get and set with no validation or
coercion. -/
theorem useProp_read_write {V : Type} (v v2 cur : V) :
    (useProp v).valueGet (useProp v).init = v ∧
    (useProp v).valueGet ((useProp v).valueSet v2 cur) = v2 ∧
    (useProp v).valueGet cur = (createSignal v).get cur ∧
    (useProp v).valueSet v2 cur = (createSignal v).set v2 cur := by
  exact ⟨rfl, rfl, rfl, rfl⟩

/-- C6: reading a formula returns exactly the value delivered by the backend
computed's get for its compute function, which is the evaluation of compute
against the dependency state current at the time of the read. -/
theorem useFormula_read_is_compute {A G S : Type}
    (compute : A → G) (set : JSRef (S → A → A)) (a : A) :
    (useFormula compute set).valueGet a = (createComputed compute).get a ∧
    (createComputed compute).get a = compute a := by
  exact ⟨rfl, rfl⟩

/-- C7: exists is a total predicate returning false exactly when its
argument is null or undefined, and true for every other value, including
the falsy values 0, the empty string, and false. -/
theorem exists_total_predicate (x : JSRef JSVal) :
    (exists' x = false ↔ x = JSRef.undefined ∨ x = JSRef.null) ∧
    exists' (JSRef.val (JSVal.num 0)) = true ∧
    exists' (JSRef.val (JSVal.str (""))) = true ∧
    exists' (JSRef.val (JSVal.bool false)) = true := by
  refine ⟨?_, rfl, rfl, rfl⟩
  rcases x with _ | _ | v <;> simp [exists', isUndefined, isNull]

/-- C9: doNow applies the supplied zero-argument function immediately and
exactly once and returns its result unchanged; instantiating the result type
with a value-and-event-list pair shows the only observable events are the
function's own; in particular doNow of the constant 42 returns 42. -/
theorem doNow_spec :
    (∀ (T : Type) (func : Unit → T), doNow func = func ()) ∧
    doNow (fun _ => (42 : Int)) = 42 ∧
    (∀ (R : Type) (r : R) (es : List (WriteEvent R)),
      doNow (fun _ => (r, es)) = (r, es)) := by
  exact ⟨fun T func => rfl, rfl, fun R r es => rfl⟩

/-- C10: the object returned by useFormula always carries the extra field
_isSig with value true, whatever the compute function, the optional setter,
and even the backend createComputed implementation. -/
theorem useFormula_isSig {A G S : Type} (c : (A → G) → ComputedObj A G)
    (compute : A → G) (set : JSRef (S → A → A)) :
    (useFormulaWith c compute set)._isSig = true ∧
    (useFormula compute set)._isSig = true := by
  exact ⟨rfl, rfl⟩

/-- C8: initializeMosa invokes no backend operation at initialization time.
The facade is constructed for every configuration, complete or incomplete;
doNow and exists succeed under any configuration; and each delegating facade
operation, only when actually invoked, succeeds exactly when the one backend
operation it delegates to is present and otherwise fails with the propagated
error naming precisely that missing operation (for doWatch, the manual arm
needs only createManualEffect and the auto arm only createAutoEffect). -/
theorem initializeMosa_lazy {T V A G S F D : Type}
    (cfg : MosaConfig T V A G S F D) (rootFn : Unit → T) (v : V)
    (compute : A → G) (set : JSRef (S → A → A)) (func : F)
    (options : JSRef (WatchOptions D)) (x : JSRef JSVal) :
    ((initializeMosa cfg).doNow rootFn = Except.ok (doNow rootFn)) ∧
    ((initializeMosa cfg).exists' x = exists' x) ∧
    (∀ cr, cfg.createRoot = JSRef.val cr →
      (initializeMosa cfg).useRoot rootFn = Except.ok (cr rootFn)) ∧
    (exists' cfg.createRoot = false →
      (initializeMosa cfg).useRoot rootFn =
        Except.error (MosaError.missingOp ("createRoot"))) ∧
    (∀ cs, cfg.createSignal = JSRef.val cs →
      (initializeMosa cfg).useProp v = Except.ok (usePropWith cs v)) ∧
    (exists' cfg.createSignal = false →
      (initializeMosa cfg).useProp v =
        Except.error (MosaError.missingOp ("createSignal"))) ∧
    (∀ cc, cfg.createComputed = JSRef.val cc →
      (initializeMosa cfg).useFormula compute set =
        Except.ok (useFormulaWith cc compute set)) ∧
    (exists' cfg.createComputed = false →
      (initializeMosa cfg).useFormula compute set =
        Except.error (MosaError.missingOp ("createComputed"))) ∧
    (∀ deps cme, optionsOn options = JSRef.val deps →
      cfg.createManualEffect = JSRef.val cme →
      (initializeMosa cfg).doWatch func options =
        Except.ok (cme deps func)) ∧
    (∀ deps, optionsOn options = JSRef.val deps →
      exists' cfg.createManualEffect = false →
      (initializeMosa cfg).doWatch func options =
        Except.error (MosaError.missingOp ("createManualEffect"))) ∧
    (∀ cae, exists' (optionsOn options) = false →
      cfg.createAutoEffect = JSRef.val cae →
      (initializeMosa cfg).doWatch func options = Except.ok (cae func)) ∧
    (exists' (optionsOn options) = false →
      exists' cfg.createAutoEffect = false →
      (initializeMosa cfg).doWatch func options =
        Except.error (MosaError.missingOp ("createAutoEffect"))) ∧
    (∀ od, cfg.onDispose = JSRef.val od →
      (initializeMosa cfg).onDispose func = Except.ok (od func)) ∧
    (exists' cfg.onDispose = false →
      (initializeMosa cfg).onDispose func =
        Except.error (MosaError.missingOp ("onDispose"))) := by
  refine ⟨rfl, rfl, ?_, ?_, ?_, ?_, ?_, ?_, ?_, ?_, ?_, ?_, ?_, ?_⟩
  · intro cr h
    simp [initializeMosa, h]
  · intro h
    rcases hc : cfg.createRoot with _ | _ | cr
    · simp [initializeMosa, hc]
    · simp [initializeMosa, hc]
    · rw [hc] at h
      simp [exists', isUndefined, isNull] at h
  · intro cs h
    simp [initializeMosa, h]
  · intro h
    rcases hc : cfg.createSignal with _ | _ | cs
    · simp [initializeMosa, hc]
    · simp [initializeMosa, hc]
    · rw [hc] at h
      simp [exists', isUndefined, isNull] at h
  · intro cc h
    simp [initializeMosa, h]
  · intro h
    rcases hc : cfg.createComputed with _ | _ | cc
    · simp [initializeMosa, hc]
    · simp [initializeMosa, hc]
    · rw [hc] at h
      simp [exists', isUndefined, isNull] at h
  · intro deps cme ho hc
    simp [initializeMosa, ho, hc]
  · intro deps ho h
    rcases hc : cfg.createManualEffect with _ | _ | cme
    · simp [initializeMosa, ho, hc]
    · simp [initializeMosa, ho, hc]
    · rw [hc] at h
      simp [exists', isUndefined, isNull] at h
  · intro cae ho hc
    rcases hs : optionsOn options with _ | _ | deps
    · simp [initializeMosa, hs, hc]
    · simp [initializeMosa, hs, hc]
    · rw [hs] at ho
      simp [exists', isUndefined, isNull] at ho
  · intro ho h
    rcases hs : optionsOn options with _ | _ | deps
    · rcases hc : cfg.createAutoEffect with _ | _ | cae
      · simp [initializeMosa, hs, hc]
      · simp [initializeMosa, hs, hc]
      · rw [hc] at h
        simp [exists', isUndefined, isNull] at h
    · rcases hc : cfg.createAutoEffect with _ | _ | cae
      · simp [initializeMosa, hs, hc]
      · simp [initializeMosa, hs, hc]
      · rw [hc] at h
        simp [exists', isUndefined, isNull] at h
    · rw [hs] at ho
      simp [exists', isUndefined, isNull] at ho
  · intro od h
    simp [initializeMosa, h]
  · intro h
    rcases hc : cfg.onDispose with _ | _ | od
    · simp [initializeMosa, hc]
    · simp [initializeMosa, hc]
    · rw [hc] at h
      simp [exists', isUndefined, isNull] at h

/-- Witness for initializeMosa_lazy: under the fully absent configuration
the facade is still constructed, doNow succeeds, useProp fails naming
createSignal, and the auto branch of doWatch fails naming createAutoEffect;
under the complete configuration useProp and the manual branch of doWatch
succeed with the delegated results. -/
theorem initializeMosa_lazy_witness :
    (initializeMosa emptyConfigN).doNow (fun _ => 5) = Except.ok 5 ∧
    (initializeMosa emptyConfigN).useProp 3 =
      Except.error (MosaError.missingOp ("createSignal")) ∧
    (initializeMosa emptyConfigN).doWatch 9 JSRef.undefined =
      Except.error (MosaError.missingOp ("createAutoEffect")) ∧
    (initializeMosa fullConfig).useProp 3 =
      Except.ok (usePropWith (fun initValue => createSignal initValue) 3) ∧
    (initializeMosa fullConfig).doWatch 9 (JSRef.val ⟨JSRef.val [4]⟩) =
      Except.ok (EffectRegistration.manual [4] 9) := by
  refine ⟨?_, ?_, ?_, ?_, ?_⟩
  · exact (initializeMosa_lazy emptyConfigN (fun _ => 5) 3 (fun a => a + 1)
      JSRef.undefined 9 JSRef.undefined JSRef.null).1
  · exact (initializeMosa_lazy emptyConfigN (fun _ => 5) 3 (fun a => a + 1)
      JSRef.undefined 9 JSRef.undefined JSRef.null).2.2.2.2.2.1 rfl
  · exact (initializeMosa_lazy emptyConfigN (fun _ => 5) 3 (fun a => a + 1)
      JSRef.undefined 9 JSRef.undefined JSRef.null).2.2.2.2.2.2.2.2.2.2.2.1 rfl rfl
  · exact (initializeMosa_lazy fullConfig (fun _ => 5) 3 (fun a => a + 1)
      JSRef.undefined 9 JSRef.undefined JSRef.null).2.2.2.2.1
      (fun initValue => createSignal initValue) rfl
  · exact (initializeMosa_lazy fullConfig (fun _ => 5) 3 (fun a => a + 1)
      JSRef.undefined 9 (JSRef.val ⟨JSRef.val [4]⟩)
      JSRef.null).2.2.2.2.2.2.2.2.1 [4]
      (fun deps func => EffectRegistration.manual deps func) rfl rfl

end Mosa
